import Mathlib

/-!
Shallow embedding of the rate limiter in `src/server/security.ts`
(`getClientIp`, `createRateLimiter`) of the ExploreX repository.

Times are milliseconds since epoch, modelled as `Nat` (`Date.now()` values).
The bucket registry (a JS `Map<string, Bucket>`) is modelled as a function
`String → Option Bucket`.  The middleware body (lines 39-69 of security.ts)
is the pure step function `rateLimitStep`, which returns the observable
response data (headers, status, body, whether `next()` was invoked) together
with the updated registry.  JS `x || y` on optional strings (empty string is
falsy) is `jsOrString`.  `Math.ceil(x / 1000)` on a nonnegative integer is
`jsCeil1000`.
-/

namespace ExploreX

/-- `Bucket` record from security.ts: `{ count: number; resetAt: number }`. -/
structure Bucket where
  count : Nat
  resetAt : Nat
deriving DecidableEq

/-- The bucket registry: `Map<string, Bucket>`, as a partial map. -/
def Registry := String → Option Bucket

/-- The registry of a freshly created limiter: `new Map()`. -/
def Registry.empty : Registry := fun _ => none

/-- `buckets.set(key, b)`. -/
def Registry.set (m : Registry) (k : String) (b : Bucket) : Registry :=
  fun q => if q = k then some b else m q

/-- JS `a || b` on an optional string: `undefined` and `""` are falsy. -/
def jsOrString (a : Option String) (b : String) : String :=
  match a with
  | some s => if s = "" then b else s
  | none => b

/-- `Math.ceil(x / 1000)` for a nonnegative integer number of milliseconds. -/
def jsCeil1000 (x : Nat) : Nat := (x + 999) / 1000

/-- `Math.max(1000, options.windowMs)` (security.ts line 28). -/
def effectiveWindowMs (w : Nat) : Nat := Nat.max 1000 w

/-- `Math.max(1, options.max)` (security.ts line 29). -/
def effectiveMax (m : Nat) : Nat := Nat.max 1 m

/-- Sweep interval `Math.min(windowMs, 60_000)` (security.ts line 37). -/
def sweepIntervalMs (windowMs : Nat) : Nat := Nat.min windowMs 60000

/-- Default rejection message (security.ts line 59). -/
def defaultMessage : String := "Too many requests. Please try again later."

/-- The `x-forwarded-for` header slot: absent, a single string, or an array
of strings (`req.headers["x-forwarded-for"]` in Express). -/
inductive HeaderValue where
  | missing
  | str (s : String)
  | arr (l : List String)
deriving DecidableEq

/-- The request data `getClientIp` reads: the `x-forwarded-for` header,
`req.ip`, and `req.socket.remoteAddress` (the latter two possibly absent). -/
structure Req where
  xForwardedFor : HeaderValue
  ip : Option String
  remoteAddress : Option String
deriving DecidableEq

/-- `Array.isArray(header) ? header[0] : header` (security.ts line 19);
`[][0]` is `undefined`. -/
def headerFirst : HeaderValue → Option String
  | .missing => none
  | .str s => some s
  | .arr l => l.head?

/-- Characters before the first occurrence of `sep` (all of them when `sep`
does not occur). -/
def jsSplitFirstAux (sep : Char) : List Char → List Char
  | [] => []
  | c :: cs => if c = sep then [] else c :: jsSplitFirstAux sep cs

/-- JS `s.split(sep)[0]` for a one-character separator: the prefix of `s`
before the first occurrence of `sep` (JS `split` always returns at least one
element, so indexing at 0 is total). -/
def jsSplitFirst (s : String) (sep : Char) : String :=
  String.mk (jsSplitFirstAux sep s.data)

/-- JS `String.prototype.trim`: strip leading and trailing whitespace. -/
def jsTrim (s : String) : String :=
  String.mk
    (((s.data.dropWhile Char.isWhitespace).reverse.dropWhile
        Char.isWhitespace).reverse)

/-- `getClientIp` (security.ts lines 17-24): `first.split(",")[0].trim()`
when the forwarded header yields a nonempty string, else
`req.ip || req.socket.remoteAddress || "unknown"`. -/
def getClientIp (req : Req) : String :=
  match headerFirst req.xForwardedFor with
  | some first =>
      if 0 < first.length then jsTrim (jsSplitFirst first ',')
      else jsOrString req.ip (jsOrString req.remoteAddress "unknown")
  | none => jsOrString req.ip (jsOrString req.remoteAddress "unknown")

/-- Observable outcome of one middleware invocation: whether `next()` was
called, the status and JSON error body if a terminal response was sent, and
the rate-limit headers that were set.  `remaining` is an integer because
the source computes it with JS subtraction before clamping. -/
structure RateLimitResult where
  nextCalled : Bool
  status : Option Nat
  errorBody : Option String
  retryAfter : Option Nat
  limit : Nat
  remaining : Int
  reset : Nat
deriving DecidableEq

/-- The middleware returned by `createRateLimiter` (security.ts lines 39-69),
as a pure step: `windowMs` and `max` are the effective (coerced) options,
`message` is `options.message`, `buckets` the registry, `now` is `Date.now()`
and `key` the generated key.  Returns the response data and the new registry. -/
def rateLimitStep (windowMs max : Nat) (message : Option String)
    (buckets : Registry) (now : Nat) (key : String) :
    RateLimitResult × Registry :=
  match buckets key with
  | none =>
      ({ nextCalled := true, status := none, errorBody := none,
         retryAfter := none, limit := max, remaining := (max : Int) - 1,
         reset := jsCeil1000 (now + windowMs) },
       buckets.set key { count := 1, resetAt := now + windowMs })
  | some existing =>
      if existing.resetAt ≤ now then
        ({ nextCalled := true, status := none, errorBody := none,
           retryAfter := none, limit := max, remaining := (max : Int) - 1,
           reset := jsCeil1000 (now + windowMs) },
         buckets.set key { count := 1, resetAt := now + windowMs })
      else if max ≤ existing.count then
        ({ nextCalled := false, status := some 429,
           errorBody := some (jsOrString message defaultMessage),
           retryAfter := some (Nat.max 1 (jsCeil1000 (existing.resetAt - now))),
           limit := max, remaining := 0,
           reset := jsCeil1000 existing.resetAt },
         buckets)
      else
        ({ nextCalled := true, status := none, errorBody := none,
           retryAfter := none, limit := max,
           remaining := Max.max 0 ((max : Int) - (existing.count + 1)),
           reset := jsCeil1000 existing.resetAt },
         buckets.set key { count := existing.count + 1, resetAt := existing.resetAt })

/-- Run the middleware on a sequence of requests for one fixed key, given the
`Date.now()` value of each request; returns the response of every request and
the final registry. -/
def runRequests (windowMs max : Nat) (message : Option String) (key : String) :
    Registry → List Nat → List RateLimitResult × Registry
  | st, [] => ([], st)
  | st, t :: ts =>
      let out := rateLimitStep windowMs max message st t key
      let rest := runRequests windowMs max message key out.2 ts
      (out.1 :: rest.1, rest.2)

/-- One tick of the periodic sweep (security.ts lines 32-37): delete every
bucket whose `resetAt <= now`. -/
def sweep (buckets : Registry) (now : Nat) : Registry :=
  fun k =>
    match buckets k with
    | some b => if b.resetAt ≤ now then none else some b
    | none => none

/-! ### Helper lemmas -/

theorem Registry.set_self (m : Registry) (k : String) (b : Bucket) :
    m.set k b k = some b := by
  simp [Registry.set]

theorem Registry.set_other (m : Registry) (k : String) (b : Bucket) (q : String)
    (h : q ≠ k) : m.set k b q = m q := by
  simp [Registry.set, h]

/-- Branch lemma: no bucket for the key, or an expired bucket
(security.ts lines 44-50). -/
theorem rateLimitStep_fresh (windowMs max : Nat) (message : Option String)
    (st : Registry) (now : Nat) (key : String)
    (h : st key = none ∨ ∃ b, st key = some b ∧ b.resetAt ≤ now) :
    rateLimitStep windowMs max message st now key =
      ({ nextCalled := true, status := none, errorBody := none,
         retryAfter := none, limit := max, remaining := (max : Int) - 1,
         reset := jsCeil1000 (now + windowMs) },
       st.set key { count := 1, resetAt := now + windowMs }) := by
  rcases h with h | ⟨b, hb, hle⟩
  · simp [rateLimitStep, h]
  · simp [rateLimitStep, hb, hle]

/-- Branch lemma: active bucket already at the limit
(security.ts lines 52-61). -/
theorem rateLimitStep_reject (windowMs max : Nat) (message : Option String)
    (st : Registry) (now : Nat) (key : String) (b : Bucket)
    (hb : st key = some b) (hactive : now < b.resetAt) (hfull : max ≤ b.count) :
    rateLimitStep windowMs max message st now key =
      ({ nextCalled := false, status := some 429,
         errorBody := some (jsOrString message defaultMessage),
         retryAfter := some (Nat.max 1 (jsCeil1000 (b.resetAt - now))),
         limit := max, remaining := 0, reset := jsCeil1000 b.resetAt },
       st) := by
  simp [rateLimitStep, hb, hfull, Nat.not_le.mpr hactive]

/-- Branch lemma: active bucket below the limit (security.ts lines 63-68). -/
theorem rateLimitStep_accept (windowMs max : Nat) (message : Option String)
    (st : Registry) (now : Nat) (key : String) (b : Bucket)
    (hb : st key = some b) (hactive : now < b.resetAt) (hroom : b.count < max) :
    rateLimitStep windowMs max message st now key =
      ({ nextCalled := true, status := none, errorBody := none,
         retryAfter := none, limit := max,
         remaining := Max.max 0 ((max : Int) - (b.count + 1)),
         reset := jsCeil1000 b.resetAt },
       st.set key { count := b.count + 1, resetAt := b.resetAt }) := by
  simp [rateLimitStep, hb, Nat.not_le.mpr hactive, Nat.not_le.mpr hroom]

theorem int_max_zero_congr (x y : Int) (hx : x ≤ 0) (hy : y ≤ 0) :
    Max.max 0 x = Max.max 0 y := by
  rw [max_eq_left hx, max_eq_left hy]

/-- Master lemma for request sequences against an already-active bucket
`⟨c, R⟩`: when every request time is before `R`, the `i`-th response (0-based)
is allowed exactly when `c + i < max`, is a 429 otherwise, and reports
`remaining = Max.max 0 (max - (c + i + 1))`. -/
theorem runRequests_active_spec (windowMs max : Nat) (message : Option String)
    (key : String) :
    ∀ (ts : List Nat) (st : Registry) (c R : Nat),
      st key = some { count := c, resetAt := R } →
      (∀ t ∈ ts, t < R) →
      ∀ i r, (runRequests windowMs max message key st ts).1[i]? = some r →
        r.nextCalled = decide (c + i < max) ∧
        r.status = (if c + i < max then none else some 429) ∧
        r.remaining = Max.max 0 ((max : Int) - (c + i + 1)) := by
  intro ts
  induction ts with
  | nil =>
    intro st c R hst hts i r hr
    simp [runRequests] at hr
  | cons t ts ih =>
    intro st c R hst hts i r hr
    have ht : t < R := hts t (by simp)
    have hts' : ∀ u ∈ ts, u < R := fun u hu => hts u (by simp [hu])
    by_cases hc : max ≤ c
    · rw [runRequests] at hr
      rw [rateLimitStep_reject windowMs max message st t key _ hst ht hc] at hr
      cases i with
      | zero =>
        simp only [List.getElem?_cons_zero, Option.some.injEq] at hr
        subst hr
        refine ⟨?_, ?_, ?_⟩
        · exact (decide_eq_false (by omega : ¬(c + 0 < max))).symm
        · rw [if_neg (by omega)]
        · show (0 : Int) = _
          exact (max_eq_left (by omega)).symm
      | succ i =>
        simp only [List.getElem?_cons_succ] at hr
        obtain ⟨h1, h2, h3⟩ := ih st c R hst hts' i r hr
        refine ⟨?_, ?_, ?_⟩
        · rw [h1]; exact decide_eq_decide.mpr (by omega)
        · rw [h2, if_neg (by omega), if_neg (by omega)]
        · rw [h3]
          exact int_max_zero_congr _ _ (by omega) (by omega)
    · have hroom : c < max := by omega
      rw [runRequests] at hr
      rw [rateLimitStep_accept windowMs max message st t key _ hst ht hroom] at hr
      cases i with
      | zero =>
        simp only [List.getElem?_cons_zero, Option.some.injEq] at hr
        subst hr
        refine ⟨?_, ?_, ?_⟩
        · exact (decide_eq_true (by omega : c + 0 < max)).symm
        · rw [if_pos (by omega)]
        · rfl
      | succ i =>
        simp only [List.getElem?_cons_succ] at hr
        have hset : (st.set key { count := c + 1, resetAt := R }) key =
            some { count := c + 1, resetAt := R } := Registry.set_self st key _
        obtain ⟨h1, h2, h3⟩ := ih _ (c + 1) R hset hts' i r hr
        refine ⟨?_, ?_, ?_⟩
        · rw [h1]; exact decide_eq_decide.mpr (by omega)
        · rw [h2]
          by_cases hlt : c + 1 + i < max
          · rw [if_pos hlt, if_pos (by omega)]
          · rw [if_neg hlt, if_neg (by omega)]
        · rw [h3]
          congr 1
          push_cast
          ring

/-! ### Claims -/

/-- C1: for a limiter with effective `max = N` and `windowMs = W`, in any
sequence of requests from one key whose bucket stays within a single window
instance (every later request time is before the window end opened by the
first request), the first `N` requests invoke the next handler and every
request from the `(N+1)`-th on is rejected with status 429. -/
theorem claim1_first_max_allowed_then_rejected
    (w m : Nat) (message : Option String) (key : String) (st : Registry)
    (t0 : Nat) (ts : List Nat) (i : Nat) (r : RateLimitResult)
    (hkey : st key = none)
    (hts : ∀ t ∈ ts, t < t0 + effectiveWindowMs w)
    (hr : (runRequests (effectiveWindowMs w) (effectiveMax m) message key st
        (t0 :: ts)).1[i]? = some r) :
    (i < effectiveMax m → r.nextCalled = true ∧ r.status = none) ∧
    (effectiveMax m ≤ i → r.nextCalled = false ∧ r.status = some 429) := by
  have hN : 1 ≤ effectiveMax m := Nat.le_max_left 1 m
  rw [runRequests] at hr
  rw [rateLimitStep_fresh (effectiveWindowMs w) (effectiveMax m) message st t0
    key (Or.inl hkey)] at hr
  cases i with
  | zero =>
    simp only [List.getElem?_cons_zero, Option.some.injEq] at hr
    subst hr
    exact ⟨fun _ => ⟨rfl, rfl⟩, fun h => absurd h (by omega)⟩
  | succ i =>
    simp only [List.getElem?_cons_succ] at hr
    have hset : (st.set key { count := 1, resetAt := t0 + effectiveWindowMs w })
        key = some { count := 1, resetAt := t0 + effectiveWindowMs w } :=
      Registry.set_self st key _
    obtain ⟨h1, h2, _⟩ := runRequests_active_spec (effectiveWindowMs w)
      (effectiveMax m) message key ts _ 1 (t0 + effectiveWindowMs w) hset hts
      i r hr
    constructor
    · intro hi
      exact ⟨by rw [h1]; exact decide_eq_true (by omega),
             by rw [h2, if_pos (by omega)]⟩
    · intro hi
      exact ⟨by rw [h1]; exact decide_eq_false (by omega),
             by rw [h2, if_neg (by omega)]⟩

/-- C1 witness: `windowMs 1000`, `max 2`, key `"1.2.3.4"`, three requests at
times 0, 1, 2; the third response (index 2) is a rejection with status 429. -/
theorem claim1_witness :
    (runRequests (effectiveWindowMs 1000) (effectiveMax 2) none "1.2.3.4"
        Registry.empty [0, 1, 2]).1[2]? =
      some { nextCalled := false, status := some 429,
             errorBody := some defaultMessage, retryAfter := some 1,
             limit := 2, remaining := 0, reset := 1 } ∧
    ({ nextCalled := false, status := some 429,
       errorBody := some defaultMessage, retryAfter := some 1,
       limit := 2, remaining := 0, reset := 1 } : RateLimitResult).nextCalled
        = false ∧
    ({ nextCalled := false, status := some 429,
       errorBody := some defaultMessage, retryAfter := some 1,
       limit := 2, remaining := 0, reset := 1 } : RateLimitResult).status
        = some 429 := by
  refine ⟨by decide, ?_⟩
  have h := (claim1_first_max_allowed_then_rejected 1000 2 none "1.2.3.4"
    Registry.empty 0 [1, 2] 2
    { nextCalled := false, status := some 429, errorBody := some defaultMessage,
      retryAfter := some 1, limit := 2, remaining := 0, reset := 1 }
    rfl (by decide) (by decide)).2 (by decide)
  exact ⟨h.1, h.2⟩

/-- C6: in the same single-window setting as C1, the `i`-th (0-based)
response reports `X-RateLimit-Remaining = max(0, N - (i+1))`: it starts at
`N - 1`, goes down by exactly 1 on each accepted request, reaches 0, stays
at 0 on rejections, and is never negative. -/
theorem claim6_remaining_countdown
    (w m : Nat) (message : Option String) (key : String) (st : Registry)
    (t0 : Nat) (ts : List Nat) (i : Nat) (r : RateLimitResult)
    (hkey : st key = none)
    (hts : ∀ t ∈ ts, t < t0 + effectiveWindowMs w)
    (hr : (runRequests (effectiveWindowMs w) (effectiveMax m) message key st
        (t0 :: ts)).1[i]? = some r) :
    r.remaining = Max.max 0 ((effectiveMax m : Int) - (i + 1)) ∧
    0 ≤ r.remaining := by
  have hN : 1 ≤ effectiveMax m := Nat.le_max_left 1 m
  rw [runRequests] at hr
  rw [rateLimitStep_fresh (effectiveWindowMs w) (effectiveMax m) message st t0
    key (Or.inl hkey)] at hr
  cases i with
  | zero =>
    simp only [List.getElem?_cons_zero, Option.some.injEq] at hr
    subst hr
    constructor
    · show ((effectiveMax m : Int) - 1) = _
      exact (max_eq_right (by omega)).symm
    · show (0 : Int) ≤ (effectiveMax m : Int) - 1
      omega
  | succ i =>
    simp only [List.getElem?_cons_succ] at hr
    have hset : (st.set key { count := 1, resetAt := t0 + effectiveWindowMs w })
        key = some { count := 1, resetAt := t0 + effectiveWindowMs w } :=
      Registry.set_self st key _
    obtain ⟨_, _, h3⟩ := runRequests_active_spec (effectiveWindowMs w)
      (effectiveMax m) message key ts _ 1 (t0 + effectiveWindowMs w) hset hts
      i r hr
    constructor
    · rw [h3]
      congr 1
      push_cast
      ring
    · rw [h3]
      exact le_max_left 0 _

/-- C6 witness: same scenario as the C1 witness; the three responses report
remaining 1, 0, 0, matching `max(0, 2 - (i+1))` and never negative. -/
theorem claim6_witness :
    (runRequests (effectiveWindowMs 1000) (effectiveMax 2) none "1.2.3.4"
        Registry.empty [0, 1, 2]).1[1]? =
      some { nextCalled := true, status := none, errorBody := none,
             retryAfter := none, limit := 2, remaining := 0, reset := 1 } ∧
    ({ nextCalled := true, status := none, errorBody := none,
       retryAfter := none, limit := 2, remaining := 0,
       reset := 1 } : RateLimitResult).remaining =
        Max.max 0 ((effectiveMax 2 : Int) - (1 + 1)) ∧
    0 ≤ ({ nextCalled := true, status := none, errorBody := none,
           retryAfter := none, limit := 2, remaining := 0,
           reset := 1 } : RateLimitResult).remaining := by
  refine ⟨by decide, ?_⟩
  have h := claim6_remaining_countdown 1000 2 none "1.2.3.4" Registry.empty
    0 [1, 2] 1
    { nextCalled := true, status := none, errorBody := none,
      retryAfter := none, limit := 2, remaining := 0, reset := 1 }
    rfl (by decide) (by decide)
  exact ⟨h.1, h.2⟩

/-- C2 counterexample: `max = 1`, two requests from key `"k"` at times 0 and
1 inside one window.  The second request is rejected with 429, yet the
bucket count remains 1 (with `resetAt` 1000) — the rejected path does not
increment the count, contradicting the claim that rejected requests also
increment it. -/
theorem claim2_counterexample :
    (runRequests 1000 1 none "k" Registry.empty [0, 1]).1[1]? =
      some { nextCalled := false, status := some 429,
             errorBody := some defaultMessage, retryAfter := some 1,
             limit := 1, remaining := 0, reset := 1 } ∧
    (runRequests 1000 1 none "k" Registry.empty [0, 1]).2 "k" =
      some { count := 1, resetAt := 1000 } := by
  exact ⟨by decide, by decide⟩

/-- C2 (amended): the bucket count starts at 1 on bucket creation or
replacement, is incremented by 1 on each subsequent accepted request within
the active window, and is left unchanged (as is the whole bucket) by a
rejected request. -/
theorem claim2_count_evolution (windowMs max : Nat) (message : Option String)
    (st : Registry) (now : Nat) (key : String) :
    (st key = none →
      (rateLimitStep windowMs max message st now key).2 key =
        some { count := 1, resetAt := now + windowMs }) ∧
    (∀ b, st key = some b → b.resetAt ≤ now →
      (rateLimitStep windowMs max message st now key).2 key =
        some { count := 1, resetAt := now + windowMs }) ∧
    (∀ b, st key = some b → now < b.resetAt → b.count < max →
      (rateLimitStep windowMs max message st now key).2 key =
        some { count := b.count + 1, resetAt := b.resetAt }) ∧
    (∀ b, st key = some b → now < b.resetAt → max ≤ b.count →
      (rateLimitStep windowMs max message st now key).2 key = some b) := by
  refine ⟨?_, ?_, ?_, ?_⟩
  · intro h
    rw [rateLimitStep_fresh windowMs max message st now key (Or.inl h)]
    exact Registry.set_self st key _
  · intro b hb hle
    rw [rateLimitStep_fresh windowMs max message st now key
      (Or.inr ⟨b, hb, hle⟩)]
    exact Registry.set_self st key _
  · intro b hb h1 h2
    rw [rateLimitStep_accept windowMs max message st now key b hb h1 h2]
    exact Registry.set_self st key _
  · intro b hb h1 h2
    rw [rateLimitStep_reject windowMs max message st now key b hb h1 h2]
    exact hb

/-- C2 witness: an accepted request against an active bucket with count 2
and `max = 5` leaves a bucket with count 3 and the same `resetAt`. -/
theorem claim2_witness :
    (rateLimitStep 1000 5 none
        (Registry.empty.set "k" { count := 2, resetAt := 1000 }) 10 "k").2 "k"
      = some { count := 3, resetAt := 1000 } :=
  (claim2_count_evolution 1000 5 none
      (Registry.empty.set "k" { count := 2, resetAt := 1000 }) 10 "k").2.2.1
    { count := 2, resetAt := 1000 }
    (Registry.set_self Registry.empty "k" _) (by decide) (by decide)

/-- C3 counterexample: with a configured message that is the empty string,
a rejected request carries the default message in its body, not the
configured one — the claim's "the configured message" reading fails because
the source coalesces with JS `||`, which treats `""` as absent. -/
theorem claim3_counterexample :
    (rateLimitStep 1000 1 (some "")
        (Registry.empty.set "k" { count := 1, resetAt := 1000 }) 0 "k").1.status
      = some 429 ∧
    (rateLimitStep 1000 1 (some "")
        (Registry.empty.set "k" { count := 1, resetAt := 1000 }) 0
        "k").1.errorBody = some defaultMessage ∧
    defaultMessage ≠ "" := by
  exact ⟨by decide, by decide, by decide⟩

/-- C3 (amended): a 429 is produced exactly when the key has an active
bucket (`now < resetAt`) with `count >= max`; on that rejection the response
has `Retry-After = max(1, ceil((resetAt - now)/1000))` (hence always ≥ 1),
`X-RateLimit-Limit = max`, `X-RateLimit-Remaining = 0`,
`X-RateLimit-Reset = ceil(resetAt/1000)`, a JSON body whose error is the
configured message when it is non-empty and the default "too many requests"
string otherwise, and the next handler is not invoked. -/
theorem claim3_rejection_characterization (windowMs max : Nat)
    (message : Option String) (st : Registry) (now : Nat) (key : String) :
    ((rateLimitStep windowMs max message st now key).1.status = some 429 ↔
      ∃ b, st key = some b ∧ now < b.resetAt ∧ max ≤ b.count) ∧
    (∀ b, st key = some b → now < b.resetAt → max ≤ b.count →
      (rateLimitStep windowMs max message st now key).1.retryAfter =
          some (Nat.max 1 (jsCeil1000 (b.resetAt - now))) ∧
      (∀ v, (rateLimitStep windowMs max message st now key).1.retryAfter =
          some v → 1 ≤ v) ∧
      (rateLimitStep windowMs max message st now key).1.limit = max ∧
      (rateLimitStep windowMs max message st now key).1.remaining = 0 ∧
      (rateLimitStep windowMs max message st now key).1.reset =
          jsCeil1000 b.resetAt ∧
      (rateLimitStep windowMs max message st now key).1.errorBody =
          some (jsOrString message defaultMessage) ∧
      (rateLimitStep windowMs max message st now key).1.nextCalled = false) := by
  constructor
  · constructor
    · intro h429
      rcases hst : st key with _ | b
      · rw [rateLimitStep_fresh windowMs max message st now key
          (Or.inl hst)] at h429
        simp at h429
      · by_cases hexp : b.resetAt ≤ now
        · rw [rateLimitStep_fresh windowMs max message st now key
            (Or.inr ⟨b, hst, hexp⟩)] at h429
          simp at h429
        · have hact : now < b.resetAt := by omega
          by_cases hfull : max ≤ b.count
          · exact ⟨b, rfl, hact, hfull⟩
          · rw [rateLimitStep_accept windowMs max message st now key b hst
              hact (by omega)] at h429
            simp at h429
    · rintro ⟨b, hb, h1, h2⟩
      rw [rateLimitStep_reject windowMs max message st now key b hb h1 h2]
  · intro b hb h1 h2
    rw [rateLimitStep_reject windowMs max message st now key b hb h1 h2]
    refine ⟨rfl, ?_, rfl, rfl, rfl, rfl, rfl⟩
    intro v hv
    injection hv with h
    exact h ▸ Nat.le_max_left 1 _

/-- C3 witness: active bucket with count 2 at `max = 2`, rejected at time 5
with a non-empty configured message: the 429 response carries the configured
body, `Retry-After = 1`, remaining 0, and does not call the next handler. -/
theorem claim3_witness :
    (rateLimitStep 1000 2 (some "slow down")
        (Registry.empty.set "k" { count := 2, resetAt := 1000 }) 5 "k").1.status
      = some 429 ∧
    (rateLimitStep 1000 2 (some "slow down")
        (Registry.empty.set "k" { count := 2, resetAt := 1000 }) 5
        "k").1.errorBody = some "slow down" ∧
    (rateLimitStep 1000 2 (some "slow down")
        (Registry.empty.set "k" { count := 2, resetAt := 1000 }) 5
        "k").1.retryAfter = some 1 ∧
    (rateLimitStep 1000 2 (some "slow down")
        (Registry.empty.set "k" { count := 2, resetAt := 1000 }) 5
        "k").1.remaining = 0 ∧
    (rateLimitStep 1000 2 (some "slow down")
        (Registry.empty.set "k" { count := 2, resetAt := 1000 }) 5
        "k").1.nextCalled = false := by
  have h := claim3_rejection_characterization 1000 2 (some "slow down")
    (Registry.empty.set "k" { count := 2, resetAt := 1000 }) 5 "k"
  have hb := Registry.set_self Registry.empty "k"
    { count := 2, resetAt := 1000 }
  obtain ⟨hra, _, _, hrem, _, hbody, hnext⟩ :=
    h.2 { count := 2, resetAt := 1000 } hb (by decide) (by decide)
  refine ⟨h.1.mpr ⟨_, hb, by decide, by decide⟩, ?_, ?_, hrem, hnext⟩
  · rw [hbody]; decide
  · rw [hra]; decide

/-- C4: when the key has no bucket or its bucket has expired
(`resetAt <= now`), the middleware installs the bucket
`{count: 1, resetAt: now + windowMs}` — regardless of any prior count — sets
`X-RateLimit-Limit = max`, `X-RateLimit-Remaining = max - 1`,
`X-RateLimit-Reset = ceil((now + windowMs)/1000)`, and invokes the next
handler with no error status. -/
theorem claim4_fresh_window (windowMs max : Nat) (message : Option String)
    (st : Registry) (now : Nat) (key : String)
    (h : st key = none ∨ ∃ b, st key = some b ∧ b.resetAt ≤ now) :
    (rateLimitStep windowMs max message st now key).2 key =
        some { count := 1, resetAt := now + windowMs } ∧
    (rateLimitStep windowMs max message st now key).1.limit = max ∧
    (rateLimitStep windowMs max message st now key).1.remaining =
        (max : Int) - 1 ∧
    (rateLimitStep windowMs max message st now key).1.reset =
        jsCeil1000 (now + windowMs) ∧
    (rateLimitStep windowMs max message st now key).1.nextCalled = true ∧
    (rateLimitStep windowMs max message st now key).1.status = none := by
  rw [rateLimitStep_fresh windowMs max message st now key h]
  exact ⟨Registry.set_self st key _, rfl, rfl, rfl, rfl, rfl⟩

/-- C4 witness: a bucket with count 7 expired at time 100; a request at time
100 is allowed again, the bucket is replaced by count 1 with
`resetAt = 1100`, and remaining is reported as `2 - 1`. -/
theorem claim4_witness :
    (rateLimitStep 1000 2 none
        (Registry.empty.set "k" { count := 7, resetAt := 100 }) 100 "k").2 "k"
      = some { count := 1, resetAt := 1100 } ∧
    (rateLimitStep 1000 2 none
        (Registry.empty.set "k" { count := 7, resetAt := 100 }) 100
        "k").1.nextCalled = true ∧
    (rateLimitStep 1000 2 none
        (Registry.empty.set "k" { count := 7, resetAt := 100 }) 100
        "k").1.remaining = (2 : Int) - 1 := by
  have h := claim4_fresh_window 1000 2 none
    (Registry.empty.set "k" { count := 7, resetAt := 100 }) 100 "k"
    (Or.inr ⟨{ count := 7, resetAt := 100 },
      Registry.set_self Registry.empty "k" _, by decide⟩)
  exact ⟨h.1, h.2.2.2.2.1, h.2.2.1⟩

/-- C5: `getClientIp` prefers the trimmed first comma-separated value of a
present, nonempty `x-forwarded-for` header; otherwise it falls back to
`req.ip`, then to the socket's remote address (skipping absent or empty
values, as JS `||` does), and finally to the literal `"unknown"`. -/
theorem claim5_client_ip_preference (req : Req) :
    (∀ s, headerFirst req.xForwardedFor = some s → 0 < s.length →
      getClientIp req = jsTrim (jsSplitFirst s ',')) ∧
    ((∀ s, headerFirst req.xForwardedFor = some s → s.length = 0) →
      (∀ i, req.ip = some i → i ≠ "" → getClientIp req = i) ∧
      ((req.ip = none ∨ req.ip = some "") →
        (∀ a, req.remoteAddress = some a → a ≠ "" → getClientIp req = a) ∧
        ((req.remoteAddress = none ∨ req.remoteAddress = some "") →
          getClientIp req = "unknown"))) := by
  constructor
  · intro s hs hlen
    simp [getClientIp, hs, hlen]
  · intro hnone
    have hfb : getClientIp req =
        jsOrString req.ip (jsOrString req.remoteAddress "unknown") := by
      unfold getClientIp
      rcases hh : headerFirst req.xForwardedFor with _ | s
      · simp
      · have hl := hnone s hh
        simp [hl]
    refine ⟨?_, ?_⟩
    · intro i hi hne
      rw [hfb, hi]
      simp [jsOrString, hne]
    · intro hip
      have hfb2 : getClientIp req = jsOrString req.remoteAddress "unknown" := by
        rcases hip with h | h <;> rw [hfb, h] <;> simp [jsOrString]
      refine ⟨?_, ?_⟩
      · intro a ha hne
        rw [hfb2, ha]
        simp [jsOrString, hne]
      · intro hra
        rcases hra with h | h <;> rw [hfb2, h] <;> simp [jsOrString]

/-- C5 witness: header `"9.9.9.9, 10.0.0.1"` derives the key `"9.9.9.9"`;
with no forwarded header and no peer address the key is `"unknown"`. -/
theorem claim5_witness :
    getClientIp
        { xForwardedFor := HeaderValue.str "9.9.9.9, 10.0.0.1",
          ip := none, remoteAddress := none } = "9.9.9.9" ∧
    getClientIp
        { xForwardedFor := HeaderValue.missing,
          ip := none, remoteAddress := none } = "unknown" := by
  constructor
  · have h := (claim5_client_ip_preference
      { xForwardedFor := HeaderValue.str "9.9.9.9, 10.0.0.1",
        ip := none, remoteAddress := none }).1 "9.9.9.9, 10.0.0.1" rfl
      (by decide)
    rw [h]
    decide
  · exact ((((claim5_client_ip_preference
      { xForwardedFor := HeaderValue.missing, ip := none,
        remoteAddress := none }).2
      (fun s hs => by cases hs)).2 (Or.inl rfl)).2 (Or.inl rfl))

/-- C7: one tick of the periodic sweep, at time `now`, deletes exactly the
buckets with `resetAt <= now`: an expired bucket is removed, an active
bucket (`now < resetAt`) is kept unchanged, and absent keys stay absent. -/
theorem claim7_sweep_exact (st : Registry) (now : Nat) (k : String) :
    (∀ b, st k = some b → b.resetAt ≤ now → sweep st now k = none) ∧
    (∀ b, st k = some b → now < b.resetAt → sweep st now k = some b) ∧
    (st k = none → sweep st now k = none) := by
  refine ⟨?_, ?_, ?_⟩
  · intro b hb hle
    simp [sweep, hb, hle]
  · intro b hb hgt
    simp [sweep, hb, Nat.not_le.mpr hgt]
  · intro h
    simp [sweep, h]

/-- C7 witness: at time 100, a sweep deletes the bucket of `"a"` (expired at
50) and keeps the bucket of `"b"` (expiring at 200) unchanged. -/
theorem claim7_witness :
    sweep ((Registry.empty.set "a" { count := 3, resetAt := 50 }).set "b"
      { count := 1, resetAt := 200 }) 100 "a" = none ∧
    sweep ((Registry.empty.set "a" { count := 3, resetAt := 50 }).set "b"
      { count := 1, resetAt := 200 }) 100 "b" =
        some { count := 1, resetAt := 200 } := by
  constructor
  · exact (claim7_sweep_exact ((Registry.empty.set "a"
      { count := 3, resetAt := 50 }).set "b" { count := 1, resetAt := 200 })
      100 "a").1 { count := 3, resetAt := 50 } (by decide) (by decide)
  · exact (claim7_sweep_exact ((Registry.empty.set "a"
      { count := 3, resetAt := 50 }).set "b" { count := 1, resetAt := 200 })
      100 "b").2.1 { count := 1, resetAt := 200 } (by decide) (by decide)

/-- C8: processing a request for `key` modifies at most the registry entry
for `key`: every other key's entry (present or absent) is unchanged. -/
theorem claim8_frame (windowMs max : Nat) (message : Option String)
    (st : Registry) (now : Nat) (key q : String) (h : q ≠ key) :
    (rateLimitStep windowMs max message st now key).2 q = st q := by
  rcases hst : st key with _ | b
  · simp [rateLimitStep, hst, Registry.set, h]
  · by_cases h1 : b.resetAt ≤ now
    · simp [rateLimitStep, hst, h1, Registry.set, h]
    · by_cases h2 : max ≤ b.count
      · simp [rateLimitStep, hst, h1, h2]
      · simp [rateLimitStep, hst, h1, h2, Registry.set, h]

/-- C8 witness: a request for key `"k"` leaves the entry of `"other"` as it
was (absent, in the empty registry). -/
theorem claim8_witness :
    (rateLimitStep 1000 2 none Registry.empty 0 "k").2 "other" =
      Registry.empty "other" :=
  claim8_frame 1000 2 none Registry.empty 0 "k" "other" (by decide)

/-- C9: a rejected (429) request leaves the bucket registry completely
unchanged: the resulting registry is the input registry itself, so the
rejected key keeps its count and `resetAt` and no entry is created,
replaced, or deleted. -/
theorem claim9_reject_preserves_registry (windowMs max : Nat)
    (message : Option String) (st : Registry) (now : Nat) (key : String)
    (b : Bucket) (hb : st key = some b) (hactive : now < b.resetAt)
    (hfull : max ≤ b.count) :
    (rateLimitStep windowMs max message st now key).2 = st := by
  rw [rateLimitStep_reject windowMs max message st now key b hb hactive hfull]

/-- C9 witness: a rejection at time 0 against a full bucket returns the very
registry it was given. -/
theorem claim9_witness :
    (rateLimitStep 1000 2 none
        (Registry.empty.set "k" { count := 3, resetAt := 1000 }) 0 "k").2 =
      Registry.empty.set "k" { count := 3, resetAt := 1000 } :=
  claim9_reject_preserves_registry 1000 2 none
    (Registry.empty.set "k" { count := 3, resetAt := 1000 }) 0 "k"
    { count := 3, resetAt := 1000 }
    (Registry.set_self Registry.empty "k" _) (by decide) (by decide)

/-- C10: when the forwarded header yields a nonempty string whose first
comma-separated segment trims to the empty string, `getClientIp` returns
`""` — it does not fall back to the peer address or `"unknown"`. -/
theorem claim10_empty_trimmed_header (req : Req) (s : String)
    (hs : headerFirst req.xForwardedFor = some s) (hlen : 0 < s.length)
    (htrim : jsTrim (jsSplitFirst s ',') = "") :
    getClientIp req = "" := by
  simp [getClientIp, hs, hlen, htrim]

/-- C10 witness: header `" "` (a single space) with both `req.ip` and the
remote address available still yields the empty-string key. -/
theorem claim10_witness :
    getClientIp
        { xForwardedFor := HeaderValue.str " ",
          ip := some "1.2.3.4", remoteAddress := some "5.6.7.8" } = "" :=
  claim10_empty_trimmed_header
    { xForwardedFor := HeaderValue.str " ", ip := some "1.2.3.4",
      remoteAddress := some "5.6.7.8" } " " rfl (by decide) (by decide)

end ExploreX
